import Mathlib

/-!
Verification of the template-matching classification engine and the
status-driven control loop of the `combined_capture_classify` repository.

The Python sources are shallowly embedded:

* a numpy float array becomes `NpArray` (row/column counts plus the
  flattened data as a list of rationals; Python floats are modelled as
  exact rationals, with `Real.sqrt` at the square-root steps);
* the pure numeric helpers of `glyph_classifier_template.py`
  (`normalized_cross_correlation`, `calculate_otsu_threshold`, the scoring
  loop of `classify`) become Lean functions over those arrays;
* the status-monitoring loop of `alt_triggered_automation.py` becomes a
  step function over an explicit state, with the external per-tick inputs
  (frame capture, crops, classification outcomes) supplied by an
  environment oracle;
* fallible Python code returns `Except`.
-/

/- ## Array model and list arithmetic helpers -/

/-- A numpy 2-d array: its shape and its flattened contents (row-major).
Python floats are modelled as exact rationals. -/
structure NpArray where
  rows : ℕ
  cols : ℕ
  data : List ℚ
deriving DecidableEq

/-- The numpy `.shape` attribute. -/
def NpArray.shape (a : NpArray) : ℕ × ℕ := (a.rows, a.cols)

/-- Sum of a list of rationals (`np.sum`). -/
def listSum (xs : List ℚ) : ℚ := xs.foldr (· + ·) 0

/-- Arithmetic mean of the element list (`np.mean`); numpy divides by the
element count. The empty case is degenerate in both settings (numpy yields
NaN, Lean yields 0) and is only ever consumed by sums over the empty list. -/
def npMean (xs : List ℚ) : ℚ := listSum xs / xs.length

/-- Subtract the mean from each element (`image - np.mean(image)`). -/
def meanCentered (xs : List ℚ) : List ℚ := xs.map (fun x => x - npMean xs)

/-- Elementwise product followed by a sum (`np.sum(a * b)` on same-shape
arrays). -/
def dotL : List ℚ → List ℚ → ℚ
  | x :: xs, y :: ys => x * y + dotL xs ys
  | _, _ => 0

/-- Sum of squares (`np.sum(a ** 2)`). -/
def normSq (xs : List ℚ) : ℚ := dotL xs xs

/- ## Configuration constants (src/config.py) -/

/-- Constant `config.MIN_CONFIDENCE_FOR_ESP_ACTION = 0.6`. -/
def MIN_CONFIDENCE_FOR_ESP_ACTION : ℚ := 6/10

/-- Constant `config.STATUS_CONFIDENCE_THRESHOLD = 0.8`. -/
def STATUS_CONFIDENCE_THRESHOLD : ℚ := 8/10

/-- Constant `config.STATUS_MAX_RETRIES = 5`. -/
def STATUS_MAX_RETRIES : ℕ := 5

/-- Constant `config.STATUS_MAX_ITERATIONS = 50`. -/
def STATUS_MAX_ITERATIONS : ℕ := 50

/- ## `TemplateGlyphClassifier.normalized_cross_correlation`
(src/glyph_classifier_template.py, lines 127-143) -/

/-- Method `TemplateGlyphClassifier.normalized_cross_correlation`: returns 0 on a
shape mismatch, otherwise centers both arrays, and divides their dot
product by the square root of the product of the squared norms, returning 0
when that denominator is zero. -/
noncomputable def normalized_cross_correlation (image template : NpArray) : ℝ :=
  if image.shape ≠ template.shape then 0
  else
    let image_mean := meanCentered image.data
    let template_mean := meanCentered template.data
    let numerator : ℚ := dotL image_mean template_mean
    let denominator : ℝ :=
      Real.sqrt (((normSq image_mean : ℚ) : ℝ) * ((normSq template_mean : ℚ) : ℝ))
    if denominator = 0 then 0 else ((numerator : ℚ) : ℝ) / denominator

/- ## `TemplateGlyphClassifier.calculate_otsu_threshold`
(src/glyph_classifier_template.py, lines 71-102) -/

/-- Histogram `np.bincount(image.flatten(), minlength=256)` at bin `v`: the number of
pixels with intensity `v`. -/
def hist (img : List ℕ) (v : ℕ) : ℕ := img.count v

/-- Size `image.size`: the total pixel count. -/
def total_pixels (img : List ℕ) : ℕ := img.length

/-- Number of pixels with intensity below `k` (running sum of the histogram). -/
def wB (img : List ℕ) (k : ℕ) : ℕ := ∑ v in Finset.range k, hist img v

/-- Sum of the intensities of the pixels with intensity below `k`. -/
def sB (img : List ℕ) (k : ℕ) : ℕ := ∑ v in Finset.range k, v * hist img v

/-- Total intensity `np.dot(np.arange(256), histogram)`. -/
def sum_total (img : List ℕ) : ℕ := sB img 256

/-- The local variables of the `for threshold in range(256)` loop of
`calculate_otsu_threshold`. -/
structure OtsuState where
  sum_background : ℕ
  weight_background : ℕ
  maximum_variance : ℚ
  optimal_threshold : ℕ
deriving DecidableEq

/-- The body of the `for threshold in range(256)` loop: `continue` when the
background class is still empty, `break` when the foreground class becomes
empty, otherwise compute the class means and the inter-class variance and
keep the first threshold attaining the strictly largest variance seen so
far. -/
def otsuLoop (img : List ℕ) : List ℕ → OtsuState → OtsuState
  | [], s => s
  | threshold :: rest, s =>
      let weight_background := s.weight_background + hist img threshold
      if weight_background = 0 then
        otsuLoop img rest { s with weight_background := weight_background }
      else
        let weight_foreground := total_pixels img - weight_background
        if weight_foreground = 0 then
          { s with weight_background := weight_background }
        else
          let sum_background := s.sum_background + threshold * hist img threshold
          let mean_background : ℚ := (sum_background : ℚ) / (weight_background : ℚ)
          let mean_foreground : ℚ :=
            ((sum_total img : ℚ) - (sum_background : ℚ)) / (weight_foreground : ℚ)
          let variance_between : ℚ :=
            (weight_background : ℚ) * (weight_foreground : ℚ) *
              (mean_background - mean_foreground) ^ 2
          if s.maximum_variance < variance_between then
            otsuLoop img rest
              { sum_background := sum_background, weight_background := weight_background,
                maximum_variance := variance_between, optimal_threshold := threshold }
          else
            otsuLoop img rest
              { s with sum_background := sum_background,
                       weight_background := weight_background }

/-- Method `TemplateGlyphClassifier.calculate_otsu_threshold` on the image's pixel
list. -/
def calculate_otsu_threshold (img : List ℕ) : ℕ :=
  (otsuLoop img (List.range 256) ⟨0, 0, 0, 0⟩).optimal_threshold

/-- Inter-class variance at threshold `t`: between the pixels at or below
`t` (the background of the code's `img > threshold` binarization) and the
pixels above `t` (foreground); defined as 0 when either class is empty.
This is the quantity the spec says `calculate_otsu_threshold` maximizes. -/
def interClassVariance (img : List ℕ) (t : ℕ) : ℚ :=
  let wb := wB img (t + 1)
  let wf := total_pixels img - wb
  if wb = 0 ∨ wf = 0 then 0
  else
    let mb : ℚ := (sB img (t + 1) : ℚ) / (wb : ℚ)
    let mf : ℚ := ((sum_total img : ℚ) - (sB img (t + 1) : ℚ)) / (wf : ℚ)
    (wb : ℚ) * (wf : ℚ) * (mb - mf) ^ 2

/- ## `TemplateGlyphClassifier.classify`
(src/glyph_classifier_template.py, lines 145-172) -/

/-- The two glyph categories, in dict insertion order q, e. -/
inductive Glyph
  | q
  | e
deriving DecidableEq

/-- The `self.templates` dictionary of `TemplateGlyphClassifier`: the
preprocessed reference grids per category (rotated variants already
expanded at load time). -/
structure GlyphTemplates where
  q : List NpArray
  e : List NpArray

/-- Dictionary lookup `self.templates[glyph]`. -/
def GlyphTemplates.templatesFor (T : GlyphTemplates) : Glyph → List NpArray
  | .q => T.q
  | .e => T.e

/-- The inner scoring loop of `classify`: `max_correlation = 0.0`, then a
running maximum of the correlations of the probe against every template of
the category. -/
noncomputable def categoryScore (processed_image : NpArray)
    (templates : List NpArray) : ℝ :=
  templates.foldl
    (fun max_correlation template =>
      max max_correlation (normalized_cross_correlation processed_image template)) 0

/-- The scoring and argmax part of `TemplateGlyphClassifier.classify`,
applied to the already preprocessed probe (the resize/convert/preprocess
pipeline in front of it is PIL plumbing outside the scoring contract).
Python's `max(scores.keys(), key=lambda k: scores[k])` iterates the dict in
insertion order q, e and keeps the first key on ties, so `e` is predicted
only when its score is strictly larger. Returns
(predicted_glyph, confidence, scores). -/
noncomputable def TemplateGlyphClassifier.classify (T : GlyphTemplates)
    (processed_image : NpArray) : Glyph × ℝ × (Glyph → ℝ) :=
  let scores : Glyph → ℝ := fun g => categoryScore processed_image (T.templatesFor g)
  let predicted_glyph : Glyph := if scores .e > scores .q then .e else .q
  (predicted_glyph, scores predicted_glyph, scores)

/- ## `StatusTemplateClassifier.classify` (src/status_classifier.py) -/

/-- The three status categories, in dict insertion order end, alt, wait. -/
inductive Status
  | end'
  | alt
  | wait
deriving DecidableEq

/-- The `region_type` selector of the status classifier. -/
inductive RegionType
  | end'
  | status
deriving DecidableEq

/-- The Python exception surfaced by the status classifier. -/
inductive PyErr
  | attributeError
deriving DecidableEq

/-- The `self._template_stats` dictionary built by
`StatusTemplateClassifier.load_templates` (lines 170-175): per status, the
list of mean-centered flattened template vectors (the stored norm is
recomputed from the centered vector exactly as the loader computed it). -/
structure StatusStats where
  end' : List (List ℚ)
  alt : List (List ℚ)
  wait : List (List ℚ)

/-- Dictionary lookup `self._template_stats[status]`. -/
def StatusStats.statsFor (S : StatusStats) : Status → List (List ℚ)
  | .end' => S.end'
  | .alt => S.alt
  | .wait => S.wait

/-- The `status_list` chosen by `region_type` (lines 192-198). -/
def status_list : RegionType → List Status
  | .end' => [.end']
  | .status => [.alt, .wait]

/-- The per-status scoring loop of `StatusTemplateClassifier.classify`
(lines 216-221) as the code actually stands: the loop body invokes
`self.fast_correlation`, an attribute that is defined nowhere in the
repository, so the first iteration raises `AttributeError`; with an empty
template list the body never runs and the initial score 0.0 is kept. -/
def statusScoreCode : List (List ℚ) → Except PyErr ℚ
  | [] => .ok 0
  | _ :: _ => .error .attributeError

/-- Method `StatusTemplateClassifier.classify` (lines 181-227) as the code
actually stands, on the already preprocessed probe. The loop over
`status_list` is unrolled (the list is fixed by `region_type`); the final
`max(scores.keys(), key=...)` keeps the first status on ties. Raises
(returns `Except.error`) whenever a scored status has at least one stored
template stat, because the scoring loop calls the undefined
`self.fast_correlation`. -/
noncomputable def StatusTemplateClassifier.classify (S : StatusStats)
    (region_type : RegionType) (processed_image : NpArray) :
    Except PyErr (Status × ℚ × List (Status × ℚ)) :=
  let img_flat := processed_image.data
  let img_centered := meanCentered img_flat
  let _img_norm : ℝ := Real.sqrt ((normSq img_centered : ℚ) : ℝ)
  match region_type with
  | .end' => do
      let se ← statusScoreCode S.end'
      pure (.end', se, [(.end', se)])
  | .status => do
      let sa ← statusScoreCode S.alt
      let sw ← statusScoreCode S.wait
      let predicted_status : Status := if sw > sa then .wait else .alt
      pure (predicted_status, if sw > sa then sw else sa, [(.alt, sa), (.wait, sw)])

/-- Modelled from the spec: `fast_correlation` is called by
`StatusTemplateClassifier.classify` but defined nowhere in the repository.
Spec section 4.2 gives the contract: correlation =
dot(probe_centered, template_centered) divided by the product of the two
norms; if either norm is zero, the correlation is defined as 0. -/
noncomputable def fast_correlation (img_centered : List ℚ) (img_norm : ℝ)
    (temp_centered : List ℚ) (temp_norm : ℝ) : ℝ :=
  if img_norm * temp_norm = 0 then 0
  else ((dotL img_centered temp_centered : ℚ) : ℝ) / (img_norm * temp_norm)

/-- The per-status scoring loop of `StatusTemplateClassifier.classify` with
the missing `fast_correlation` modelled from the spec: a running maximum,
starting at 0.0, of the correlations against the stored template stats
(each template norm recomputed from its centered vector exactly as the
loader stored it). -/
noncomputable def statusScoreSpec (img_centered : List ℚ) (img_norm : ℝ)
    (stats : List (List ℚ)) : ℝ :=
  stats.foldl
    (fun max_correlation temp_centered =>
      max max_correlation
        (fast_correlation img_centered img_norm temp_centered
          (Real.sqrt ((normSq temp_centered : ℚ) : ℝ)))) 0

/-- Method `StatusTemplateClassifier.classify` with the missing `fast_correlation`
modelled from the spec (the intended, non-raising classifier): computes the
probe statistics once, scores each status of the selected region, and
returns the first status attaining the maximal score together with that
score. -/
noncomputable def StatusTemplateClassifier.classifySpec (S : StatusStats)
    (region_type : RegionType) (processed_image : NpArray) :
    Status × ℝ × List (Status × ℝ) :=
  let img_centered := meanCentered processed_image.data
  let img_norm : ℝ := Real.sqrt ((normSq img_centered : ℚ) : ℝ)
  match region_type with
  | .end' =>
      let se := statusScoreSpec img_centered img_norm S.end'
      (.end', se, [(.end', se)])
  | .status =>
      let sa := statusScoreSpec img_centered img_norm S.alt
      let sw := statusScoreSpec img_centered img_norm S.wait
      ((if sw > sa then .wait else .alt), (if sw > sa then sw else sa),
        [(.alt, sa), (.wait, sw)])

/- ## `KeyboardInterface` (src/keyboard_interface.py) and
`AltTriggeredAutomation._process_classification`
(src/alt_triggered_automation.py, lines 203-233) -/

/-- A key press method of `KeyboardInterface` (`press_q`, `press_e`,
`press_alt`): refuses when not connected (no command leaves the host),
otherwise sends the single command string over the serial channel;
`send_ok` is the transport's success result, supplied by the environment.
Returns (commands sent to the device, boolean result). -/
def press_key (connected : Bool) (send_ok : Bool) (cmd : String) : List String × Bool :=
  if connected then ([cmd], send_ok) else ([], false)

/-- Method `KeyboardInterface.press_q`. -/
def press_q (connected send_ok : Bool) : List String × Bool :=
  press_key connected send_ok "Q"

/-- Method `KeyboardInterface.press_e`. -/
def press_e (connected send_ok : Bool) : List String × Bool :=
  press_key connected send_ok "E"

/-- Method `AltTriggeredAutomation._process_classification`: below the action
threshold nothing is sent; otherwise the `q`/`e` prediction is routed to
the matching key press, and any other prediction string sends nothing. The
random pre-command delay only affects timing and is dropped. Returns
(commands sent to the device, the method's boolean result). -/
def process_classification (connected send_ok : Bool) (prediction : String)
    (confidence : ℚ) : List String × Bool :=
  if confidence < MIN_CONFIDENCE_FOR_ESP_ACTION then ([], false)
  else if prediction = "q" then press_q connected send_ok
  else if prediction = "e" then press_e connected send_ok
  else ([], false)

/- ## `AltTriggeredAutomation._status_monitoring_loop`
(src/alt_triggered_automation.py, lines 290-427) -/

/-- The mutable counters of one `_status_monitoring_loop` invocation. -/
structure LoopState where
  no_match_count : ℕ
  iteration_count : ℕ
deriving DecidableEq

/-- Why one invocation of the monitoring loop stopped. `altRestart` is the
alt-detected path: send ALT, re-run the Q/E sequence, then restart the
monitoring loop fresh. `aborted` covers a false `self._running` or a set
`self._stop_monitoring` observed by the while-guard. -/
inductive ExitReason
  | captureFailures
  | cropFailures
  | lowConfidence
  | classifyErrors
  | endDetected
  | altRestart
  | maxIterations
  | aborted
deriving DecidableEq

/-- The external inputs consumed by one tick of the monitoring loop: the
flag values the while-guard reads, the capture result, the two crop results
and the two classification outcomes (an `Except.error` models a raised,
caught exception). Fields for steps the tick does not reach are unused. -/
structure TickEnv where
  running : Bool
  stop_monitoring : Bool
  frame : Option Unit
  end_crop : Option NpArray
  end_classify : Except Unit (Status × ℚ)
  status_crop : Option NpArray
  status_classify : Except Unit (Status × ℚ)

/-- Result of one tick body: keep looping with updated counters, or leave
the loop. -/
inductive StepRes
  | next (s : LoopState)
  | exit (r : ExitReason)
deriving DecidableEq

/-- One tick body of `_status_monitoring_loop` (lines 302-405), after the
while-guard: capture, then the prioritized end-region check, then the
alt/wait-region check. Mirrors the source exactly: a failed capture, a
failed status crop, a caught status-classification exception and a
low-confidence match all bump `no_match_count` against the same retry
budget; the end-region check increments `iteration_count` only when its
classification completes, and a confident end match leaves the loop before
the alt/wait region is ever consulted. -/
def monitorStep (e : TickEnv) (s : LoopState) : StepRes :=
  match e.frame with
  | none =>
      let no_match_count := s.no_match_count + 1
      if STATUS_MAX_RETRIES ≤ no_match_count then .exit .captureFailures
      else .next { s with no_match_count := no_match_count }
  | some _ =>
      let endCheck : LoopState × Bool :=
        match e.end_crop with
        | none => (s, false)
        | some _ =>
            match e.end_classify with
            | .error _ => (s, false)
            | .ok (end_prediction, end_confidence) =>
                let s1 := { s with iteration_count := s.iteration_count + 1 }
                if end_prediction = Status.end' ∧
                    STATUS_CONFIDENCE_THRESHOLD ≤ end_confidence then (s1, true)
                else (s1, false)
      let s1 := endCheck.1
      if endCheck.2 then .exit .endDetected
      else
        match e.status_crop with
        | none =>
            let n := s1.no_match_count + 1
            if STATUS_MAX_RETRIES ≤ n then .exit .cropFailures
            else .next { s1 with no_match_count := n }
        | some _ =>
            match e.status_classify with
            | .error _ =>
                let n := s1.no_match_count + 1
                if STATUS_MAX_RETRIES ≤ n then .exit .classifyErrors
                else .next { s1 with no_match_count := n }
            | .ok (prediction, confidence) =>
                if STATUS_CONFIDENCE_THRESHOLD ≤ confidence then
                  let s2 := { s1 with no_match_count := 0 }
                  if prediction = Status.wait then .next s2
                  else if prediction = Status.alt then .exit .altRestart
                  else .next s2
                else
                  let n := s1.no_match_count + 1
                  if STATUS_MAX_RETRIES ≤ n then .exit .lowConfidence
                  else .next { s1 with no_match_count := n }

/-- Outcome of unfolding the monitoring loop for a bounded number of ticks:
either it left the loop, or it is still looping. -/
inductive RunRes
  | finished (r : ExitReason) (s : LoopState)
  | running (s : LoopState)
deriving DecidableEq

/-- Whether the loop has left. -/
def RunRes.isFinished : RunRes → Bool
  | .finished _ _ => true
  | .running _ => false

/-- The while-loop of `_status_monitoring_loop`: the guard re-reads
`iteration_count < STATUS_MAX_ITERATIONS`, `self._running` and
`self._stop_monitoring` before every tick. `env` is the stream of per-tick
external inputs, `k` the index of the next tick, `fuel` how many ticks we
unfold; running out of fuel yields `RunRes.running` (the loop itself has
not exited within that many ticks). -/
def monitorRun (env : ℕ → TickEnv) : ℕ → ℕ → LoopState → RunRes
  | _, 0, s => .running s
  | k, fuel + 1, s =>
      if s.iteration_count < STATUS_MAX_ITERATIONS then
        if (env k).running && !(env k).stop_monitoring then
          match monitorStep (env k) s with
          | .next s' => monitorRun env (k + 1) fuel s'
          | .exit r => .finished r s
        else .finished .aborted s
      else .finished .maxIterations s

/-- The counters at loop entry (`no_match_count = 0`, `iteration_count = 0`,
lines 296-297). -/
def monitorStart : LoopState := ⟨0, 0⟩

/-- The tick environment of a run whose every frame capture fails. -/
def captureFailEnv : TickEnv where
  running := true
  stop_monitoring := false
  frame := none
  end_crop := none
  end_classify := .error ()
  status_crop := none
  status_classify := .error ()

/-- A tick environment on which the end region is never usable (the end
crop fails every tick) while the alt/wait region keeps matching `wait` with
high confidence. -/
def waitForeverEnv : TickEnv where
  running := true
  stop_monitoring := false
  frame := some ()
  end_crop := none
  end_classify := .error ()
  status_crop := some ⟨1, 1, [0]⟩
  status_classify := .ok (.wait, 9/10)

/- ## Lemmas: Cauchy-Schwarz for the list dot product -/

lemma normSq_nonneg (xs : List ℚ) : 0 ≤ normSq xs := by
  induction xs with
  | nil => simp [normSq, dotL]
  | cons x xs ih =>
      have hx : 0 ≤ x * x := mul_self_nonneg x
      simpa [normSq, dotL] using add_nonneg hx ih

lemma dotL_sq_le (xs ys : List ℚ) : dotL xs ys ^ 2 ≤ normSq xs * normSq ys := by
  induction xs generalizing ys with
  | nil => simp [dotL, normSq]
  | cons x xs ih =>
      cases ys with
      | nil => simp [dotL, normSq]
      | cons y ys =>
          have h := ih ys
          have h1 : 0 ≤ normSq xs := normSq_nonneg xs
          have h2 : 0 ≤ normSq ys := normSq_nonneg ys
          simp only [normSq] at *
          show (x * y + dotL xs ys) ^ 2 ≤ (x * x + dotL xs xs) * (y * y + dotL ys ys)
          rcases eq_or_lt_of_le h1 with hA | hA
          · have h0 : dotL xs ys ^ 2 = 0 :=
              le_antisymm (by rw [← hA] at h; simpa using h) (sq_nonneg _)
            have hd : dotL xs ys = 0 := (pow_eq_zero_iff (by norm_num)).mp h0
            rw [hd, ← hA]
            nlinarith [mul_nonneg (mul_self_nonneg x) h2]
          · nlinarith [sq_nonneg (y * dotL xs xs - x * dotL xs ys),
              mul_nonneg (add_nonneg (mul_self_nonneg x) h1) (sub_nonneg.mpr h), hA]

lemma dotL_self_eq_normSq (xs : List ℚ) : dotL xs xs = normSq xs := rfl

/- ## Lemmas: normalized cross correlation -/

lemma normalized_cross_correlation_def (image template : NpArray) :
    normalized_cross_correlation image template =
      if image.shape ≠ template.shape then 0
      else
        if Real.sqrt (((normSq (meanCentered image.data) : ℚ) : ℝ) *
            ((normSq (meanCentered template.data) : ℚ) : ℝ)) = 0 then 0
        else
          ((dotL (meanCentered image.data) (meanCentered template.data) : ℚ) : ℝ) /
            Real.sqrt (((normSq (meanCentered image.data) : ℚ) : ℝ) *
              ((normSq (meanCentered template.data) : ℚ) : ℝ)) := rfl

lemma abs_ncc_le_one (image template : NpArray) :
    |normalized_cross_correlation image template| ≤ 1 := by
  rw [normalized_cross_correlation_def]
  split
  · simp
  · split
    · simp
    · rename_i hD
      have hDpos : 0 < Real.sqrt (((normSq (meanCentered image.data) : ℚ) : ℝ) *
          ((normSq (meanCentered template.data) : ℚ) : ℝ)) :=
        lt_of_le_of_ne (Real.sqrt_nonneg _) (Ne.symm hD)
      rw [abs_div, abs_of_pos hDpos, div_le_one hDpos, ← Real.sqrt_sq_eq_abs]
      apply Real.sqrt_le_sqrt
      exact_mod_cast dotL_sq_le (meanCentered image.data) (meanCentered template.data)

lemma neg_one_le_ncc (image template : NpArray) :
    -1 ≤ normalized_cross_correlation image template :=
  (abs_le.mp (abs_ncc_le_one image template)).1

lemma ncc_le_one (image template : NpArray) :
    normalized_cross_correlation image template ≤ 1 :=
  (abs_le.mp (abs_ncc_le_one image template)).2

lemma ncc_self (image : NpArray) (h : normSq (meanCentered image.data) ≠ 0) :
    normalized_cross_correlation image image = 1 := by
  have hpos : 0 < normSq (meanCentered image.data) :=
    lt_of_le_of_ne (normSq_nonneg _) (Ne.symm h)
  have hposR : (0 : ℝ) < ((normSq (meanCentered image.data) : ℚ) : ℝ) := by
    exact_mod_cast hpos
  rw [normalized_cross_correlation_def, if_neg (by simp),
    Real.sqrt_mul_self hposR.le, if_neg (ne_of_gt hposR), dotL_self_eq_normSq]
  exact div_self (ne_of_gt hposR)

/- ## C1 and C9 -/

/-- C1: for every same-shape probe/template pair the normalized cross
correlation lies in [-1, 1] (zero-variance probes included), and whenever
an array's centered norm is nonzero its correlation with itself is
exactly 1. -/
theorem ncc_bounded_and_self_one (image template : NpArray)
    (_hshape : image.shape = template.shape) :
    (-1 ≤ normalized_cross_correlation image template ∧
      normalized_cross_correlation image template ≤ 1) ∧
    (normSq (meanCentered image.data) ≠ 0 →
      normalized_cross_correlation image image = 1) :=
  ⟨⟨neg_one_le_ncc image template, ncc_le_one image template⟩,
    fun hnorm => ncc_self image hnorm⟩

/-- Witness for C1 at the concrete 1-by-2 pair ([0, 1], [1, 0]). -/
theorem ncc_bounded_and_self_one_witness :
    (NpArray.mk 1 2 [0, 1]).shape = (NpArray.mk 1 2 [1, 0]).shape ∧
    normSq (meanCentered (NpArray.mk 1 2 [0, 1]).data) ≠ 0 ∧
    ((-1 ≤ normalized_cross_correlation ⟨1, 2, [0, 1]⟩ ⟨1, 2, [1, 0]⟩ ∧
        normalized_cross_correlation ⟨1, 2, [0, 1]⟩ ⟨1, 2, [1, 0]⟩ ≤ 1) ∧
      normalized_cross_correlation ⟨1, 2, [0, 1]⟩ ⟨1, 2, [0, 1]⟩ = 1) :=
  ⟨rfl, by norm_num [normSq, meanCentered, npMean, listSum, dotL],
    (ncc_bounded_and_self_one ⟨1, 2, [0, 1]⟩ ⟨1, 2, [1, 0]⟩ rfl).1,
    (ncc_bounded_and_self_one ⟨1, 2, [0, 1]⟩ ⟨1, 2, [1, 0]⟩ rfl).2
      (by norm_num [normSq, meanCentered, npMean, listSum, dotL])⟩

/-- C9: the correlation is total and returns 0 both on a shape mismatch and
whenever either centered vector has zero norm (for example a flat,
zero-variance image); in the embedding no other outcome than a real number
is possible, so no NaN or exception can be produced. -/
theorem ncc_zero_on_mismatch_or_flat (image template : NpArray)
    (h : image.shape ≠ template.shape ∨ normSq (meanCentered image.data) = 0 ∨
      normSq (meanCentered template.data) = 0) :
    normalized_cross_correlation image template = 0 := by
  rw [normalized_cross_correlation_def]
  by_cases hs : image.shape ≠ template.shape
  · rw [if_pos hs]
  · rw [if_neg hs]
    rcases h with h | h | h
    · exact absurd h hs
    · have hcond : Real.sqrt (((normSq (meanCentered image.data) : ℚ) : ℝ) *
          ((normSq (meanCentered template.data) : ℚ) : ℝ)) = 0 := by
        rw [h]; simp
      rw [if_pos hcond]
    · have hcond : Real.sqrt (((normSq (meanCentered image.data) : ℚ) : ℝ) *
          ((normSq (meanCentered template.data) : ℚ) : ℝ)) = 0 := by
        rw [h]; simp
      rw [if_pos hcond]

/-- Witness for C9 at the flat (zero-variance) 1-by-2 image [5, 5]. -/
theorem ncc_zero_on_mismatch_or_flat_witness :
    normSq (meanCentered (NpArray.mk 1 2 [5, 5]).data) = 0 ∧
    normalized_cross_correlation ⟨1, 2, [5, 5]⟩ ⟨1, 2, [0, 1]⟩ = 0 :=
  ⟨by norm_num [normSq, meanCentered, npMean, listSum, dotL],
    ncc_zero_on_mismatch_or_flat ⟨1, 2, [5, 5]⟩ ⟨1, 2, [0, 1]⟩
      (Or.inr (Or.inl (by norm_num [normSq, meanCentered, npMean, listSum, dotL])))⟩

/- ## Lemmas: running maximum (the scoring loops) -/

lemma le_foldl_max {α : Type} (f : α → ℝ) (l : List α) :
    ∀ a : ℝ, a ≤ l.foldl (fun m x => max m (f x)) a := by
  induction l with
  | nil => intro a; simp
  | cons x l ih =>
      intro a
      exact le_trans (le_max_left a (f x)) (ih (max a (f x)))

lemma mem_le_foldl_max {α : Type} (f : α → ℝ) (l : List α) {x : α} (hx : x ∈ l) :
    ∀ a : ℝ, f x ≤ l.foldl (fun m y => max m (f y)) a := by
  induction l with
  | nil => cases hx
  | cons y l ih =>
      intro a
      rcases List.mem_cons.mp hx with h | h
      · subst h
        exact le_trans (le_max_right a (f x)) (le_foldl_max f l (max a (f x)))
      · exact ih h (max a (f y))

lemma foldl_max_le {α : Type} (f : α → ℝ) (l : List α) (c : ℝ)
    (h : ∀ x ∈ l, f x ≤ c) :
    ∀ a : ℝ, a ≤ c → l.foldl (fun m x => max m (f x)) a ≤ c := by
  induction l with
  | nil => intro a ha; simpa using ha
  | cons x l ih =>
      intro a ha
      exact ih (fun y hy => h y (List.mem_cons_of_mem x hy)) (max a (f x))
        (max_le ha (h x (List.mem_cons_self x l)))

lemma foldl_max_attained {α : Type} (f : α → ℝ) (l : List α) :
    ∀ a : ℝ, l.foldl (fun m x => max m (f x)) a = a ∨
      ∃ x ∈ l, l.foldl (fun m x => max m (f x)) a = f x := by
  induction l with
  | nil => intro a; exact Or.inl rfl
  | cons x l ih =>
      intro a
      have hstep : (x :: l).foldl (fun m y => max m (f y)) a
          = l.foldl (fun m y => max m (f y)) (max a (f x)) := rfl
      rcases ih (max a (f x)) with h | ⟨y, hy, hfy⟩
      · rcases le_total a (f x) with hm | hm
        · exact Or.inr ⟨x, List.mem_cons_self x l, by rw [hstep, h, max_eq_right hm]⟩
        · exact Or.inl (by rw [hstep, h, max_eq_left hm])
      · exact Or.inr ⟨y, List.mem_cons_of_mem x hy, by rw [hstep, hfy]⟩

lemma categoryScore_nonneg (p : NpArray) (ts : List NpArray) :
    0 ≤ categoryScore p ts :=
  le_foldl_max (fun t => normalized_cross_correlation p t) ts 0

lemma categoryScore_le_one (p : NpArray) (ts : List NpArray) :
    categoryScore p ts ≤ 1 :=
  foldl_max_le (fun t => normalized_cross_correlation p t) ts 1
    (fun t _ => ncc_le_one p t) 0 zero_le_one

lemma ncc_le_categoryScore (p : NpArray) (ts : List NpArray) {t : NpArray}
    (ht : t ∈ ts) : normalized_cross_correlation p t ≤ categoryScore p ts :=
  mem_le_foldl_max (fun t => normalized_cross_correlation p t) ts ht 0

lemma categoryScore_attained (p : NpArray) (ts : List NpArray) :
    categoryScore p ts = 0 ∨
      ∃ t ∈ ts, categoryScore p ts = normalized_cross_correlation p t :=
  foldl_max_attained (fun t => normalized_cross_correlation p t) ts 0

lemma classify_scores_eq (T : GlyphTemplates) (p : NpArray) (g : Glyph) :
    (TemplateGlyphClassifier.classify T p).2.2 g
      = categoryScore p (T.templatesFor g) := rfl

lemma classify_confidence_eq (T : GlyphTemplates) (p : NpArray) :
    (TemplateGlyphClassifier.classify T p).2.1
      = (TemplateGlyphClassifier.classify T p).2.2
          (TemplateGlyphClassifier.classify T p).1 := rfl

lemma classify_predicted_eq (T : GlyphTemplates) (p : NpArray) :
    (TemplateGlyphClassifier.classify T p).1
      = if categoryScore p (T.templatesFor .e) > categoryScore p (T.templatesFor .q)
        then Glyph.e else Glyph.q := rfl

lemma ncc_example_neg_one :
    normalized_cross_correlation ⟨1, 2, [0, 1]⟩ ⟨1, 2, [1, 0]⟩ = -1 := by
  rw [normalized_cross_correlation_def, if_neg (by simp [NpArray.shape])]
  have hdata1 : (NpArray.mk 1 2 [0, 1]).data = [0, 1] := rfl
  have hdata2 : (NpArray.mk 1 2 [1, 0]).data = [1, 0] := rfl
  rw [hdata1, hdata2]
  have h1 : normSq (meanCentered ([0, 1] : List ℚ)) = 1/2 := by
    norm_num [normSq, meanCentered, npMean, listSum, dotL]
  have h2 : normSq (meanCentered ([1, 0] : List ℚ)) = 1/2 := by
    norm_num [normSq, meanCentered, npMean, listSum, dotL]
  have h3 : dotL (meanCentered ([0, 1] : List ℚ)) (meanCentered ([1, 0] : List ℚ))
      = -(1/2) := by
    norm_num [meanCentered, npMean, listSum, dotL]
  rw [h1, h2, h3]
  have hc : (((1/2 : ℚ)) : ℝ) = (1/2 : ℝ) := by norm_num
  rw [hc]
  have hs : Real.sqrt ((1/2 : ℝ) * (1/2 : ℝ)) = 1/2 := Real.sqrt_mul_self (by norm_num)
  rw [hs, if_neg (by norm_num)]
  norm_num

/- ## C2 -/

/-- C2 counterexample: with a single q template whose correlation with the
probe is -1 (and no e templates), the q score reported by `classify` is 0,
the floored running maximum, whereas the maximum correlation over the q
templates is -1; so a category's score is not in general the maximum
correlation over that category's templates. -/
theorem classify_score_ne_max_correlation :
    (TemplateGlyphClassifier.classify ⟨[⟨1, 2, [1, 0]⟩], []⟩ ⟨1, 2, [0, 1]⟩).2.2 Glyph.q
        ≠ normalized_cross_correlation ⟨1, 2, [0, 1]⟩ ⟨1, 2, [1, 0]⟩ := by
  rw [classify_scores_eq, ncc_example_neg_one]
  have h : categoryScore ⟨1, 2, [0, 1]⟩
      ((GlyphTemplates.mk [⟨1, 2, [1, 0]⟩] []).templatesFor Glyph.q) = 0 := by
    show List.foldl _ 0 [(⟨1, 2, [1, 0]⟩ : NpArray)] = 0
    show max 0 (normalized_cross_correlation ⟨1, 2, [0, 1]⟩ ⟨1, 2, [1, 0]⟩) = 0
    rw [ncc_example_neg_one]
    norm_num
  rw [h]
  norm_num

/-- C2 (amended): classify's per-category score is the running maximum,
started at 0.0, of the correlations over that category's templates (so the
maximum correlation floored at zero, and 0 for an empty category); the best
category is the argmax of these scores, a tie is broken in favor of q, the
first category in dict iteration order, and the reported confidence is
exactly the winning category's score. -/
theorem classify_argmax_floored (T : GlyphTemplates) (p : NpArray) :
    (∀ g : Glyph, ∀ t ∈ T.templatesFor g,
        normalized_cross_correlation p t
          ≤ (TemplateGlyphClassifier.classify T p).2.2 g) ∧
    (∀ g : Glyph, 0 ≤ (TemplateGlyphClassifier.classify T p).2.2 g ∧
        ((TemplateGlyphClassifier.classify T p).2.2 g = 0 ∨
          ∃ t ∈ T.templatesFor g,
            (TemplateGlyphClassifier.classify T p).2.2 g
              = normalized_cross_correlation p t)) ∧
    (∀ g : Glyph, (TemplateGlyphClassifier.classify T p).2.2 g
        ≤ (TemplateGlyphClassifier.classify T p).2.1) ∧
    (TemplateGlyphClassifier.classify T p).2.1
      = (TemplateGlyphClassifier.classify T p).2.2
          (TemplateGlyphClassifier.classify T p).1 ∧
    ((TemplateGlyphClassifier.classify T p).2.2 Glyph.q
        = (TemplateGlyphClassifier.classify T p).2.2 Glyph.e →
      (TemplateGlyphClassifier.classify T p).1 = Glyph.q) := by
  refine ⟨?_, ?_, ?_, classify_confidence_eq T p, ?_⟩
  · intro g t ht
    rw [classify_scores_eq]
    exact ncc_le_categoryScore p (T.templatesFor g) ht
  · intro g
    rw [classify_scores_eq]
    exact ⟨categoryScore_nonneg p (T.templatesFor g),
      categoryScore_attained p (T.templatesFor g)⟩
  · intro g
    rw [classify_confidence_eq, classify_scores_eq, classify_scores_eq,
      classify_predicted_eq]
    by_cases hgt : categoryScore p (T.templatesFor .e)
        > categoryScore p (T.templatesFor .q)
    · rw [if_pos hgt]
      cases g with
      | q => exact le_of_lt hgt
      | e => exact le_refl _
    · rw [if_neg hgt]
      cases g with
      | q => exact le_refl _
      | e => exact le_of_not_lt hgt
  · intro htie
    rw [classify_scores_eq, classify_scores_eq] at htie
    rw [classify_predicted_eq, if_neg (by rw [← htie]; exact lt_irrefl _)]

/-- Witness for the amended C2 at a concrete classifier state: one q
template, no e templates, and the probe [0, 1]. -/
theorem classify_argmax_floored_witness :
    (⟨1, 2, [1, 0]⟩ : NpArray)
        ∈ (GlyphTemplates.mk [⟨1, 2, [1, 0]⟩] []).templatesFor Glyph.q ∧
    normalized_cross_correlation ⟨1, 2, [0, 1]⟩ ⟨1, 2, [1, 0]⟩
      ≤ (TemplateGlyphClassifier.classify ⟨[⟨1, 2, [1, 0]⟩], []⟩
          ⟨1, 2, [0, 1]⟩).2.2 Glyph.q ∧
    (TemplateGlyphClassifier.classify ⟨[⟨1, 2, [1, 0]⟩], []⟩ ⟨1, 2, [0, 1]⟩).2.1
      = (TemplateGlyphClassifier.classify ⟨[⟨1, 2, [1, 0]⟩], []⟩
          ⟨1, 2, [0, 1]⟩).2.2
          (TemplateGlyphClassifier.classify ⟨[⟨1, 2, [1, 0]⟩], []⟩
            ⟨1, 2, [0, 1]⟩).1 :=
  ⟨List.mem_cons_self _ _,
    (classify_argmax_floored ⟨[⟨1, 2, [1, 0]⟩], []⟩ ⟨1, 2, [0, 1]⟩).1 Glyph.q
      ⟨1, 2, [1, 0]⟩ (List.mem_cons_self _ _),
    (classify_argmax_floored ⟨[⟨1, 2, [1, 0]⟩], []⟩ ⟨1, 2, [0, 1]⟩).2.2.2.1⟩

/- ## Lemmas: spec-modelled fast correlation and the status scores -/

lemma abs_fast_correlation_le_one (ic tc : List ℚ) :
    |fast_correlation ic (Real.sqrt ((normSq ic : ℚ) : ℝ)) tc
        (Real.sqrt ((normSq tc : ℚ) : ℝ))| ≤ 1 := by
  unfold fast_correlation
  split
  · simp
  · rename_i hD
    have h1 : (0 : ℝ) ≤ ((normSq ic : ℚ) : ℝ) := by exact_mod_cast normSq_nonneg ic
    have hmul : Real.sqrt ((normSq ic : ℚ) : ℝ) * Real.sqrt ((normSq tc : ℚ) : ℝ)
        = Real.sqrt (((normSq ic : ℚ) : ℝ) * ((normSq tc : ℚ) : ℝ)) :=
      (Real.sqrt_mul h1 _).symm
    have hDpos : 0 < Real.sqrt ((normSq ic : ℚ) : ℝ) *
        Real.sqrt ((normSq tc : ℚ) : ℝ) :=
      lt_of_le_of_ne (mul_nonneg (Real.sqrt_nonneg _) (Real.sqrt_nonneg _))
        (Ne.symm hD)
    rw [abs_div, abs_of_pos hDpos, div_le_one hDpos, hmul, ← Real.sqrt_sq_eq_abs]
    exact Real.sqrt_le_sqrt (by exact_mod_cast dotL_sq_le ic tc)

lemma statusScoreSpec_nonneg (ic : List ℚ) (n : ℝ) (stats : List (List ℚ)) :
    0 ≤ statusScoreSpec ic n stats :=
  le_foldl_max _ stats 0

lemma statusScoreSpec_le_one (ic : List ℚ) (stats : List (List ℚ)) :
    statusScoreSpec ic (Real.sqrt ((normSq ic : ℚ) : ℝ)) stats ≤ 1 :=
  foldl_max_le _ stats 1
    (fun tc _ => (abs_le.mp (abs_fast_correlation_le_one ic tc)).2) 0 zero_le_one

/- ## C10 -/

/-- C10: every per-category score reported by the glyph classifier, and
hence its reported confidence, lies in [0, 1]: the running maximum starts
at 0.0, flooring negative correlations at zero, and no correlation exceeds
1. The same holds for the status classifier's confidence and score map
(taken with the spec-modelled `fast_correlation`, since the code's own
scoring raises; see the C3 analysis). -/
theorem classify_scores_and_confidence_in_unit_interval
    (T : GlyphTemplates) (p : NpArray)
    (S : StatusStats) (rt : RegionType) (q : NpArray) :
    (∀ g : Glyph, 0 ≤ (TemplateGlyphClassifier.classify T p).2.2 g ∧
        (TemplateGlyphClassifier.classify T p).2.2 g ≤ 1) ∧
    (0 ≤ (TemplateGlyphClassifier.classify T p).2.1 ∧
      (TemplateGlyphClassifier.classify T p).2.1 ≤ 1) ∧
    (0 ≤ (StatusTemplateClassifier.classifySpec S rt q).2.1 ∧
      (StatusTemplateClassifier.classifySpec S rt q).2.1 ≤ 1) ∧
    (∀ x ∈ (StatusTemplateClassifier.classifySpec S rt q).2.2,
      0 ≤ x.2 ∧ x.2 ≤ 1) := by
  have hg : ∀ g : Glyph, 0 ≤ (TemplateGlyphClassifier.classify T p).2.2 g ∧
      (TemplateGlyphClassifier.classify T p).2.2 g ≤ 1 := by
    intro g
    rw [classify_scores_eq]
    exact ⟨categoryScore_nonneg p _, categoryScore_le_one p _⟩
  have hs : ∀ st : Status,
      0 ≤ statusScoreSpec (meanCentered q.data)
          (Real.sqrt ((normSq (meanCentered q.data) : ℚ) : ℝ)) (S.statsFor st) ∧
      statusScoreSpec (meanCentered q.data)
          (Real.sqrt ((normSq (meanCentered q.data) : ℚ) : ℝ)) (S.statsFor st) ≤ 1 :=
    fun st => ⟨statusScoreSpec_nonneg _ _ _, statusScoreSpec_le_one _ _⟩
  refine ⟨hg, ?_, ?_, ?_⟩
  · rw [classify_confidence_eq]
    exact hg _
  · cases rt with
    | end' => exact hs Status.end'
    | status =>
        show 0 ≤ (if _ > _ then _ else _) ∧ (if _ > _ then _ else _) ≤ 1
        split
        · exact hs Status.wait
        · exact hs Status.alt
  · intro x hx
    cases rt with
    | end' =>
        have : x = (Status.end', statusScoreSpec (meanCentered q.data)
            (Real.sqrt ((normSq (meanCentered q.data) : ℚ) : ℝ)) S.end') := by
          simpa [StatusTemplateClassifier.classifySpec] using hx
        rw [this]
        exact hs Status.end'
    | status =>
        rcases (by simpa [StatusTemplateClassifier.classifySpec] using hx :
            x = (Status.alt, statusScoreSpec (meanCentered q.data)
                (Real.sqrt ((normSq (meanCentered q.data) : ℚ) : ℝ)) S.alt) ∨
            x = (Status.wait, statusScoreSpec (meanCentered q.data)
                (Real.sqrt ((normSq (meanCentered q.data) : ℚ) : ℝ)) S.wait)) with
          h | h
        · rw [h]; exact hs Status.alt
        · rw [h]; exact hs Status.wait

/-- Witness for C10 at an empty template store and a 1-by-1 probe. -/
theorem classify_scores_in_unit_interval_witness :
    (0 ≤ (TemplateGlyphClassifier.classify ⟨[], []⟩ ⟨1, 1, [0]⟩).2.1 ∧
      (TemplateGlyphClassifier.classify ⟨[], []⟩ ⟨1, 1, [0]⟩).2.1 ≤ 1) ∧
    (0 ≤ (StatusTemplateClassifier.classifySpec ⟨[], [], []⟩ .status ⟨1, 1, [0]⟩).2.1 ∧
      (StatusTemplateClassifier.classifySpec ⟨[], [], []⟩ .status ⟨1, 1, [0]⟩).2.1 ≤ 1) :=
  ⟨(classify_scores_and_confidence_in_unit_interval ⟨[], []⟩ ⟨1, 1, [0]⟩
      ⟨[], [], []⟩ .status ⟨1, 1, [0]⟩).2.1,
    (classify_scores_and_confidence_in_unit_interval ⟨[], []⟩ ⟨1, 1, [0]⟩
      ⟨[], [], []⟩ .status ⟨1, 1, [0]⟩).2.2.1⟩

/- ## C3 -/

/-- C3 (code bug): `StatusTemplateClassifier.classify` does not return: as
soon as the selected region has at least one stored template stat, the
scoring loop's call to the undefined `self.fast_correlation` raises
`AttributeError`, for both the alt/wait region and the end region. -/
theorem statusClassify_raises_attributeError :
    StatusTemplateClassifier.classify ⟨[], [[1]], [[1]]⟩ .status ⟨1, 1, [0]⟩
        = .error .attributeError ∧
    StatusTemplateClassifier.classify ⟨[[1]], [], []⟩ .end' ⟨1, 1, [0]⟩
        = .error .attributeError :=
  ⟨rfl, rfl⟩

/- ## C7 -/

/-- C7: with the device interface connected (guaranteed after the
constructor, which aborts unless `initialize` succeeds), a key command goes
out to the device if and only if the classification confidence reaches
`MIN_CONFIDENCE_FOR_ESP_ACTION` and the prediction is a known glyph (q or
e); any sub-threshold result sends nothing, and a disconnected interface
never sends. -/
theorem process_classification_gates_on_confidence (send_ok : Bool)
    (prediction : String) (confidence : ℚ) :
    ((process_classification true send_ok prediction confidence).1 ≠ []
      ↔ (MIN_CONFIDENCE_FOR_ESP_ACTION ≤ confidence ∧
          (prediction = "q" ∨ prediction = "e"))) ∧
    (confidence < MIN_CONFIDENCE_FOR_ESP_ACTION →
      (process_classification true send_ok prediction confidence).1 = []) ∧
    (process_classification false send_ok prediction confidence).1 = [] := by
  by_cases hlt : confidence < MIN_CONFIDENCE_FOR_ESP_ACTION
  · refine ⟨?_, fun _ => by simp [process_classification, hlt], ?_⟩
    · simp only [process_classification, if_pos hlt]
      simp only [ne_eq, not_true_eq_false, false_iff, not_and]
      intro hge
      exact absurd hlt (not_lt.mpr hge)
    · simp [process_classification, hlt]
  · have hge : MIN_CONFIDENCE_FOR_ESP_ACTION ≤ confidence := not_lt.mp hlt
    refine ⟨?_, fun hc => absurd hc hlt, ?_⟩
    · by_cases hq : prediction = "q"
      · simp [process_classification, hlt, hq, press_q, press_key, hge]
      · by_cases he : prediction = "e"
        · simp [process_classification, hlt, hq, he, press_e, press_key, hge]
        · simp [process_classification, hlt, hq, he]
    · by_cases hq : prediction = "q"
      · simp [process_classification, hlt, hq, press_q, press_key]
      · by_cases he : prediction = "e"
        · simp [process_classification, hlt, hq, he, press_e, press_key]
        · simp [process_classification, hlt, hq, he]

/-- Witness for C7: a q prediction at confidence 0.7 sends a command. -/
theorem process_classification_gates_witness :
    MIN_CONFIDENCE_FOR_ESP_ACTION ≤ (7/10 : ℚ) ∧
    (process_classification true true "q" (7/10)).1 ≠ [] :=
  ⟨by norm_num [MIN_CONFIDENCE_FOR_ESP_ACTION],
    (process_classification_gates_on_confidence true "q" (7/10)).1.mpr
      ⟨by norm_num [MIN_CONFIDENCE_FOR_ESP_ACTION], Or.inl rfl⟩⟩

/- ## C5 -/

/-- C5: if every frame capture fails, the monitoring loop (started with
fresh counters) exits with the capture-failure reason after exactly
`STATUS_MAX_RETRIES` ticks: after any smaller number of ticks it is still
running, with one consecutive failure counted per tick. -/
theorem monitoring_exits_after_exactly_max_retries :
    monitorRun (fun _ => captureFailEnv) 0 STATUS_MAX_RETRIES monitorStart
        = .finished .captureFailures ⟨STATUS_MAX_RETRIES - 1, 0⟩ ∧
    (∀ m : ℕ, m < STATUS_MAX_RETRIES →
      monitorRun (fun _ => captureFailEnv) 0 m monitorStart = .running ⟨m, 0⟩) := by
  constructor
  · decide
  · decide

/-- Witness for C5 after 3 of the 5 allowed failures. -/
theorem monitoring_exits_after_exactly_max_retries_witness :
    3 < STATUS_MAX_RETRIES ∧
    monitorRun (fun _ => captureFailEnv) 0 3 monitorStart = .running ⟨3, 0⟩ :=
  ⟨by decide, monitoring_exits_after_exactly_max_retries.2 3 (by decide)⟩

/- ## C4 -/

/-- C4: on any tick whose end-region crop succeeds and classifies as end
with confidence at or above the status threshold, the monitoring loop exits
with the end reason: no alt restart and no wait self-loop can happen on
that tick, whatever the alt/wait region's crop and classification would
have said, because the end check runs first. -/
theorem end_detection_has_priority (e : TickEnv) (s : LoopState) (c : NpArray)
    (conf : ℚ) (hiter : s.iteration_count < STATUS_MAX_ITERATIONS)
    (hrun : e.running = true) (hstop : e.stop_monitoring = false)
    (hframe : e.frame = some ()) (hcrop : e.end_crop = some c)
    (hclass : e.end_classify = .ok (.end', conf))
    (hconf : STATUS_CONFIDENCE_THRESHOLD ≤ conf) :
    monitorStep e s = .exit .endDetected ∧
    monitorStep e s ≠ .exit .altRestart ∧
    (∀ s' : LoopState, monitorStep e s ≠ .next s') ∧
    (∀ env : ℕ → TickEnv, ∀ k fuel : ℕ, env k = e →
      monitorRun env k (fuel + 1) s = .finished .endDetected s) := by
  have hstep : monitorStep e s = .exit .endDetected := by
    simp [monitorStep, hframe, hcrop, hclass, hconf]
  refine ⟨hstep, by rw [hstep]; simp, fun s' => by rw [hstep]; simp, ?_⟩
  intro env k fuel henv
  rw [monitorRun, if_pos hiter]
  rw [henv, hrun, hstop]
  simp only [Bool.not_false, Bool.and_true, if_true]
  rw [hstep]

/-- Witness for C4 on a synthetic tick where the end region and the
alt/wait region would both independently classify above threshold. -/
theorem end_detection_has_priority_witness :
    monitorStart.iteration_count < STATUS_MAX_ITERATIONS ∧
    STATUS_CONFIDENCE_THRESHOLD ≤ (9/10 : ℚ) ∧
    monitorStep ⟨true, false, some (), some ⟨1, 1, [0]⟩, .ok (.end', 9/10),
        some ⟨1, 1, [0]⟩, .ok (.alt, 9/10)⟩ monitorStart = .exit .endDetected :=
  ⟨by decide, by norm_num [STATUS_CONFIDENCE_THRESHOLD],
    (end_detection_has_priority
      ⟨true, false, some (), some ⟨1, 1, [0]⟩, .ok (.end', 9/10),
        some ⟨1, 1, [0]⟩, .ok (.alt, 9/10)⟩
      monitorStart ⟨1, 1, [0]⟩ (9/10) (by decide) rfl rfl rfl rfl rfl
      (by norm_num [STATUS_CONFIDENCE_THRESHOLD])).1⟩

/- ## C6 -/

lemma monitorStep_waitForeverEnv (s : LoopState) :
    monitorStep waitForeverEnv s = .next { s with no_match_count := 0 } := by
  simp [monitorStep, waitForeverEnv]
  norm_num [STATUS_CONFIDENCE_THRESHOLD]

lemma monitorRun_waitForeverEnv :
    ∀ fuel k : ℕ,
      monitorRun (fun _ => waitForeverEnv) k fuel monitorStart
        = .running monitorStart := by
  intro fuel
  induction fuel with
  | zero => intro k; rfl
  | succ n ih =>
      intro k
      rw [monitorRun, if_pos (by decide : monitorStart.iteration_count
        < STATUS_MAX_ITERATIONS)]
      rw [show (waitForeverEnv.running && !waitForeverEnv.stop_monitoring) = true
        from rfl, if_pos rfl]
      rw [monitorStep_waitForeverEnv]
      exact ih (k + 1)

/-- C6 counterexample: a run on which every tick captures a frame but the
end-region crop fails and the alt/wait region keeps matching wait with high
confidence is still running after `STATUS_MAX_ITERATIONS` + 1 = 51 ticks:
the iteration counter only advances on ticks whose end-region
classification completes, so the tick count of the loop is not bounded by
`STATUS_MAX_ITERATIONS` alone. -/
theorem monitoring_can_exceed_max_iterations :
    monitorRun (fun _ => waitForeverEnv) 0 (STATUS_MAX_ITERATIONS + 1) monitorStart
        = .running monitorStart ∧ STATUS_MAX_ITERATIONS + 1 = 51 :=
  ⟨monitorRun_waitForeverEnv (STATUS_MAX_ITERATIONS + 1) 0, rfl⟩

lemma monitorStep_next_iteration (e : TickEnv) (s s' : LoopState)
    (hf : e.frame = some ()) (hc : ∃ c, e.end_crop = some c)
    (hcl : ∃ r, e.end_classify = .ok r)
    (h : monitorStep e s = .next s') :
    s'.iteration_count = s.iteration_count + 1 := by
  obtain ⟨c, hc⟩ := hc
  obtain ⟨⟨pred, conf⟩, hcl⟩ := hcl
  simp only [monitorStep, hf, hc, hcl] at h
  repeat' split at h
  all_goals simp_all
  all_goals cases h
  all_goals rfl

/-- C6 (amended): the loop guard bounds `iteration_count`, and
`iteration_count` advances exactly on ticks whose end-region classification
completes; hence every run in which each tick captures a frame, crops the
end region and classifies it without an exception leaves the loop within
`STATUS_MAX_ITERATIONS` + 1 ticks, whatever the classification results and
the alt/wait region outcomes are. Ticks failing the end-region check do
not advance the counter, so no such bound holds for them (see the
counterexample). -/
theorem monitoring_bounded_when_end_check_completes (env : ℕ → TickEnv)
    (H : ∀ n : ℕ, (env n).frame = some () ∧ (∃ c, (env n).end_crop = some c) ∧
      ∃ r, (env n).end_classify = .ok r) :
    ∀ fuel : ℕ, ∀ k : ℕ, ∀ s : LoopState,
      s.iteration_count ≤ STATUS_MAX_ITERATIONS →
      STATUS_MAX_ITERATIONS + 1 ≤ s.iteration_count + fuel →
      (monitorRun env k fuel s).isFinished = true := by
  intro fuel
  induction fuel with
  | zero =>
      intro k s hle hge
      exfalso
      omega
  | succ n ih =>
      intro k s hle hge
      rw [monitorRun]
      by_cases hiter : s.iteration_count < STATUS_MAX_ITERATIONS
      · rw [if_pos hiter]
        cases hb : ((env k).running && !(env k).stop_monitoring) with
        | false => rfl
        | true =>
            simp only [if_true]
            cases hstep : monitorStep (env k) s with
            | exit r => rfl
            | next s' =>
                have hit : s'.iteration_count = s.iteration_count + 1 :=
                  monitorStep_next_iteration (env k) s s' (H k).1 (H k).2.1
                    (H k).2.2 hstep
                exact ih (k + 1) s' (by omega) (by omega)
      · rw [if_neg hiter]
        rfl

/-- Witness for the amended C6: a constant environment whose end region
always classifies (below threshold) and whose alt/wait crop always fails;
the run is finished within 51 ticks. -/
theorem monitoring_bounded_witness :
    monitorStart.iteration_count ≤ STATUS_MAX_ITERATIONS ∧
    STATUS_MAX_ITERATIONS + 1 ≤ monitorStart.iteration_count + 51 ∧
    (monitorRun
        (fun _ => ⟨true, false, some (), some ⟨1, 1, [0]⟩, .ok (.end', 0),
          none, .error ()⟩)
        0 51 monitorStart).isFinished = true :=
  ⟨by decide, by decide,
    monitoring_bounded_when_end_check_completes
      (fun _ => ⟨true, false, some (), some ⟨1, 1, [0]⟩, .ok (.end', 0),
        none, .error ()⟩)
      (fun _ => ⟨rfl, ⟨⟨1, 1, [0]⟩, rfl⟩, ⟨(.end', 0), rfl⟩⟩)
      51 0 monitorStart (by decide) (by decide)⟩

/- ## Lemmas: Otsu threshold -/

lemma wB_succ (img : List ℕ) (k : ℕ) :
    wB img (k + 1) = wB img k + hist img k :=
  Finset.sum_range_succ _ _

lemma sB_succ (img : List ℕ) (k : ℕ) :
    sB img (k + 1) = sB img k + k * hist img k :=
  Finset.sum_range_succ _ _

lemma wB_mono (img : List ℕ) {k m : ℕ} (h : k ≤ m) : wB img k ≤ wB img m :=
  Finset.sum_le_sum_of_subset (Finset.range_subset.mpr h)

lemma wB_cons (a : ℕ) (l : List ℕ) (k : ℕ) :
    wB (a :: l) k = wB l k + (if a < k then 1 else 0) := by
  unfold wB hist
  have hcount : ∀ v : ℕ, (a :: l).count v = l.count v + (if v = a then 1 else 0) := by
    intro v
    rcases eq_or_ne v a with h | h
    · subst h; simp [List.count_cons]
    · simp [List.count_cons, h, Ne.symm h]
  rw [Finset.sum_congr rfl (fun v _ => hcount v), Finset.sum_add_distrib,
    Finset.sum_ite_eq' (Finset.range k) a (fun _ => 1)]
  simp only [Finset.mem_range]

lemma wB_le_total (img : List ℕ) (k : ℕ) : wB img k ≤ total_pixels img := by
  induction img with
  | nil => simp [wB, hist, total_pixels]
  | cons a l ih =>
      rw [wB_cons]
      have hlen : total_pixels (a :: l) = total_pixels l + 1 := rfl
      have hle : (if a < k then 1 else 0) ≤ 1 := by split <;> simp
      omega

lemma interClassVariance_nonneg (img : List ℕ) (t : ℕ) :
    0 ≤ interClassVariance img t := by
  simp only [interClassVariance]
  split
  · exact le_refl 0
  · positivity

lemma interClassVariance_eq_zero_of_wb_eq_zero (img : List ℕ) (t : ℕ)
    (h : wB img (t + 1) = 0) : interClassVariance img t = 0 := by
  simp only [interClassVariance]
  rw [if_pos (Or.inl h)]

lemma interClassVariance_eq_zero_of_wf_eq_zero (img : List ℕ) (t : ℕ)
    (h : total_pixels img - wB img (t + 1) = 0) : interClassVariance img t = 0 := by
  simp only [interClassVariance]
  rw [if_pos (Or.inr h)]

lemma interClassVariance_of_ne (img : List ℕ) (t : ℕ)
    (h1 : wB img (t + 1) ≠ 0) (h2 : total_pixels img - wB img (t + 1) ≠ 0) :
    interClassVariance img t
      = (wB img (t + 1) : ℚ) * ((total_pixels img - wB img (t + 1) : ℕ) : ℚ) *
        (((sB img (t + 1) : ℚ) / (wB img (t + 1) : ℚ) -
          ((sum_total img : ℚ) - (sB img (t + 1) : ℚ)) /
            ((total_pixels img - wB img (t + 1) : ℕ) : ℚ)) ^ 2) := by
  simp only [interClassVariance]
  rw [if_neg (by push_neg; exact ⟨h1, h2⟩)]

lemma otsuLoop_invariant (img : List ℕ) :
    ∀ n k : ℕ, ∀ s : OtsuState,
      k + n = 256 →
      s.weight_background = wB img k →
      s.sum_background = sB img k →
      0 ≤ s.maximum_variance →
      s.maximum_variance ≤ interClassVariance img s.optimal_threshold →
      (∀ t', t' < k → interClassVariance img t' ≤ s.maximum_variance) →
      (∀ t', t' < s.optimal_threshold →
        interClassVariance img t' < s.maximum_variance) →
      s.optimal_threshold < 256 →
      (∀ t', t' < 256 → interClassVariance img t'
          ≤ (otsuLoop img (List.range' k n) s).maximum_variance) ∧
      (otsuLoop img (List.range' k n) s).maximum_variance
        ≤ interClassVariance img (otsuLoop img (List.range' k n) s).optimal_threshold ∧
      (∀ t', t' < (otsuLoop img (List.range' k n) s).optimal_threshold →
        interClassVariance img t' < (otsuLoop img (List.range' k n) s).maximum_variance) ∧
      (otsuLoop img (List.range' k n) s).optimal_threshold < 256 := by
  intro n
  induction n with
  | zero =>
      intro k s hk hwb hsb hmv0 hmvopt hdom hfirst hlt
      exact ⟨fun t' ht' => hdom t' (by omega), hmvopt, hfirst, hlt⟩
  | succ n ih =>
      intro k s hk hwb hsb hmv0 hmvopt hdom hfirst hlt
      have hcons : List.range' k (n + 1) = k :: List.range' (k + 1) n := rfl
      rw [hcons]
      simp only [otsuLoop]
      by_cases h0 : s.weight_background + hist img k = 0
      · rw [if_pos h0]
        have hwb1 : wB img (k + 1) = 0 := by
          rw [wB_succ, ← hwb]; exact h0
        have hh : hist img k = 0 := by omega
        refine ih (k + 1) _ (by omega) (by rw [hwb, wB_succ]) ?_ hmv0 hmvopt ?_ hfirst hlt
        · show s.sum_background = sB img (k + 1)
          rw [hsb, sB_succ, hh, Nat.mul_zero, Nat.add_zero]
        · intro t' ht'
          rcases Nat.lt_succ_iff_lt_or_eq.mp ht' with h | h
          · exact hdom t' h
          · subst h
            rw [interClassVariance_eq_zero_of_wb_eq_zero img t' hwb1]
            exact hmv0
      · rw [if_neg h0]
        have h2 : s.weight_background + hist img k = wB img (k + 1) := by
          rw [hwb, wB_succ]
        by_cases hwf : total_pixels img - (s.weight_background + hist img k) = 0
        · rw [if_pos hwf]
          have hwbtot : wB img (k + 1) = total_pixels img := by
            have h1 := wB_le_total img (k + 1)
            omega
          refine ⟨?_, hmvopt, hfirst, hlt⟩
          intro t' ht'
          by_cases htk : t' < k
          · exact hdom t' htk
          · have hfull : wB img (t' + 1) = total_pixels img := by
              have hmono := wB_mono img (show k + 1 ≤ t' + 1 by omega)
              have hle := wB_le_total img (t' + 1)
              omega
            rw [interClassVariance_eq_zero_of_wf_eq_zero img t' (by omega)]
            exact hmv0
        · rw [if_neg hwf]
          have hwbne : wB img (k + 1) ≠ 0 := by omega
          have hwfne : total_pixels img - wB img (k + 1) ≠ 0 := by omega
          rw [hwb, hsb, ← wB_succ, ← sB_succ,
            ← interClassVariance_of_ne img k hwbne hwfne]
          by_cases hvar : s.maximum_variance < interClassVariance img k
          · rw [if_pos hvar]
            refine ih (k + 1) _ (by omega) rfl rfl
              (interClassVariance_nonneg img k) (le_refl _) ?_ ?_
              (show k < 256 by omega)
            · intro t' ht'
              rcases Nat.lt_succ_iff_lt_or_eq.mp ht' with h | h
              · exact le_of_lt (lt_of_le_of_lt (hdom t' h) hvar)
              · subst h; exact le_refl _
            · intro t' ht'
              exact lt_of_le_of_lt (hdom t' ht') hvar
          · rw [if_neg hvar]
            refine ih (k + 1) _ (by omega) rfl rfl hmv0 hmvopt ?_ hfirst hlt
            intro t' ht'
            rcases Nat.lt_succ_iff_lt_or_eq.mp ht' with h | h
            · exact hdom t' h
            · subst h; exact not_lt.mp hvar

lemma calculate_otsu_threshold_spec (img : List ℕ) :
    (∀ t', t' < 256 → interClassVariance img t'
        ≤ interClassVariance img (calculate_otsu_threshold img)) ∧
    (∀ t', t' < calculate_otsu_threshold img →
      interClassVariance img t'
        < interClassVariance img (calculate_otsu_threshold img)) ∧
    calculate_otsu_threshold img < 256 := by
  obtain ⟨hA, hB, hC, hD⟩ := otsuLoop_invariant img 256 0 ⟨0, 0, 0, 0⟩ rfl
    (by simp [wB]) (by simp [sB]) (le_refl 0) (interClassVariance_nonneg img 0)
    (fun t' ht' => absurd ht' (Nat.not_lt_zero t'))
    (fun t' ht' => absurd ht' (Nat.not_lt_zero t')) (by norm_num)
  have hcalc : calculate_otsu_threshold img
      = (otsuLoop img (List.range' 0 256) ⟨0, 0, 0, 0⟩).optimal_threshold := by
    rw [calculate_otsu_threshold, List.range_eq_range']
  have hvar : interClassVariance img
        (otsuLoop img (List.range' 0 256) ⟨0, 0, 0, 0⟩).optimal_threshold
      = (otsuLoop img (List.range' 0 256) ⟨0, 0, 0, 0⟩).maximum_variance :=
    le_antisymm (hA _ hD) hB
  refine ⟨?_, ?_, ?_⟩
  · intro t' ht'
    rw [hcalc, hvar]
    exact hA t' ht'
  · intro t' ht'
    rw [hcalc, hvar]
    rw [hcalc] at ht'
    exact hC t' ht'
  · rw [hcalc]
    exact hD

lemma wB_pair (k : ℕ) :
    wB [20, 220] k = (if 20 < k then 1 else 0) + (if 220 < k then 1 else 0) := by
  unfold wB hist
  have hcount : ∀ v : ℕ, ([20, 220] : List ℕ).count v
      = (if v = 20 then 1 else 0) + (if v = 220 then 1 else 0) := by
    intro v
    rcases eq_or_ne v 20 with h1 | h1 <;> rcases eq_or_ne v 220 with h2 | h2 <;>
      simp_all [List.count_cons]
  rw [Finset.sum_congr rfl (fun v _ => hcount v), Finset.sum_add_distrib,
    Finset.sum_ite_eq' (Finset.range k) 20 (fun _ => 1),
    Finset.sum_ite_eq' (Finset.range k) 220 (fun _ => 1)]
  simp only [Finset.mem_range]

lemma sB_pair (k : ℕ) :
    sB [20, 220] k = (if 20 < k then 20 else 0) + (if 220 < k then 220 else 0) := by
  unfold sB hist
  have hterm : ∀ v : ℕ, v * ([20, 220] : List ℕ).count v
      = (if v = 20 then 20 else 0) + (if v = 220 then 220 else 0) := by
    intro v
    rcases eq_or_ne v 20 with h1 | h1 <;> rcases eq_or_ne v 220 with h2 | h2 <;>
      simp_all [List.count_cons]
  rw [Finset.sum_congr rfl (fun v _ => hterm v), Finset.sum_add_distrib,
    Finset.sum_ite_eq' (Finset.range k) 20 (fun _ => 20),
    Finset.sum_ite_eq' (Finset.range k) 220 (fun _ => 220)]
  simp only [Finset.mem_range]

lemma total_pixels_pair : total_pixels [20, 220] = 2 := rfl

lemma sum_total_pair : sum_total [20, 220] = 240 := by
  unfold sum_total
  rw [sB_pair]
  norm_num

lemma interClassVariance_pair_le (t : ℕ) :
    interClassVariance [20, 220] t ≤ 40000 := by
  by_cases h20 : 20 < t + 1
  · by_cases h220 : 220 < t + 1
    · rw [interClassVariance_eq_zero_of_wf_eq_zero _ _
        (by rw [wB_pair, if_pos h20, if_pos h220, total_pixels_pair])]
      norm_num
    · have h1 : wB [20, 220] (t + 1) = 1 := by
        rw [wB_pair, if_pos h20, if_neg h220]
      have h2 : sB [20, 220] (t + 1) = 20 := by
        rw [sB_pair, if_pos h20, if_neg h220]
      rw [interClassVariance_of_ne _ _ (by rw [h1]; norm_num)
        (by rw [h1, total_pixels_pair]; norm_num)]
      rw [h1, h2, sum_total_pair, total_pixels_pair]
      norm_num
  · rw [interClassVariance_eq_zero_of_wb_eq_zero _ _
      (by rw [wB_pair, if_neg h20, if_neg (show ¬ 220 < t + 1 by omega)])]
    norm_num

lemma interClassVariance_pair_lt_of_lt (t : ℕ) (h : t < 20) :
    interClassVariance [20, 220] t < 40000 := by
  rw [interClassVariance_eq_zero_of_wb_eq_zero _ _
    (by rw [wB_pair, if_neg (show ¬ 20 < t + 1 by omega),
      if_neg (show ¬ 220 < t + 1 by omega)])]
  norm_num

lemma interClassVariance_pair_at_20 : interClassVariance [20, 220] 20 = 40000 := by
  have h1 : wB [20, 220] (20 + 1) = 1 := by
    rw [wB_pair]
    norm_num
  have h2 : sB [20, 220] (20 + 1) = 20 := by
    rw [sB_pair]
    norm_num
  rw [interClassVariance_of_ne _ _ (by rw [h1]; norm_num)
    (by rw [h1, total_pixels_pair]; norm_num)]
  rw [h1, h2, sum_total_pair, total_pixels_pair]
  norm_num

lemma calculate_otsu_threshold_pair : calculate_otsu_threshold [20, 220] = 20 := by
  obtain ⟨hA, hC, hD⟩ := calculate_otsu_threshold_spec [20, 220]
  have hub : interClassVariance [20, 220] (calculate_otsu_threshold [20, 220])
      ≤ 40000 := interClassVariance_pair_le _
  have hlb : (40000 : ℚ)
      ≤ interClassVariance [20, 220] (calculate_otsu_threshold [20, 220]) := by
    have := hA 20 (by norm_num)
    rwa [interClassVariance_pair_at_20] at this
  have hval : interClassVariance [20, 220] (calculate_otsu_threshold [20, 220])
      = 40000 := le_antisymm hub hlb
  rcases Nat.lt_trichotomy (calculate_otsu_threshold [20, 220]) 20 with h | h | h
  · exfalso
    have := interClassVariance_pair_lt_of_lt _ h
    rw [hval] at this
    exact lt_irrefl _ this
  · exact h
  · exfalso
    have := hC 20 h
    rw [interClassVariance_pair_at_20, hval] at this
    exact lt_irrefl _ this

/- ## C8 -/

/-- C8 counterexample: on the bimodal image with half its pixels at
intensity 20 and half at 220 (here one pixel each), the code returns
threshold 20, which is not strictly between the two modes. -/
theorem otsu_bimodal_not_strictly_between :
    calculate_otsu_threshold [20, 220] = 20 ∧
    ¬ (20 < calculate_otsu_threshold [20, 220] ∧
        calculate_otsu_threshold [20, 220] < 220) := by
  refine ⟨calculate_otsu_threshold_pair, ?_⟩
  rw [calculate_otsu_threshold_pair]
  omega

/-- C8 (amended): `calculate_otsu_threshold` returns a maximizer of the
inter-class variance between the below-or-at-threshold and above-threshold
pixel populations (the first maximizer, since an update needs a strict
improvement); on the bimodal image with half its pixels at 20 and half at
220 the returned threshold is exactly 20, the lower mode — within
[20, 220), not strictly between the modes — so the binarization
`img > threshold` still separates the two modes exactly. -/
theorem otsu_maximizes_interclass_variance (img : List ℕ) :
    (∀ t', t' < 256 → interClassVariance img t'
        ≤ interClassVariance img (calculate_otsu_threshold img)) ∧
    20 ≤ calculate_otsu_threshold [20, 220] ∧
    calculate_otsu_threshold [20, 220] < 220 := by
  refine ⟨(calculate_otsu_threshold_spec img).1, ?_, ?_⟩
  · rw [calculate_otsu_threshold_pair]
  · rw [calculate_otsu_threshold_pair]
    norm_num

/-- Witness for the amended C8 at the bimodal image and threshold 100. -/
theorem otsu_maximizes_witness :
    (100 : ℕ) < 256 ∧
    interClassVariance [20, 220] 100
      ≤ interClassVariance [20, 220] (calculate_otsu_threshold [20, 220]) :=
  ⟨by norm_num,
    (otsu_maximizes_interclass_variance [20, 220]).1 100 (by norm_num)⟩
